import Mathlib

/-!
Shallow embedding of alexaControl.py (repository twilliams1832/AlexaControl).

The module interfaces with Alexa devices through a session-authenticated
request layer: a cookie file is loaded and normalized into transport headers,
a csrf token is extracted from it, a process-global device cache is lazily
populated from a devices endpoint, and device-targeted commands are built as a
double-encoded JSON envelope and POSTed to a behaviors endpoint.

Pure helpers of the Python runtime that the source leans on (dict and list
subscripts, str(), int(), json.dumps) are embedded explicitly.  Stateful code
(the process-global `devices` cache and the outgoing HTTP calls) is embedded
as explicit state passing over a record holding the cache and a log of issued
network calls.  External collaborators (the requests library and the
simplejson decoder) enter as an environment record of response bodies and a
decode oracle.  Exceptions are embedded with Except / Option: the source wraps
almost every function body in a bare try/except that logs and returns None,
which is modeled as returning none.
-/

namespace AlexaControl

/-- Decoded JSON values as handled by the Python json module.  Number
literals are modeled as integers; no float appears anywhere in the module
or in any claim. -/
inductive Json where
  | null
  | bool (b : Bool)
  | num (n : Int)
  | str (s : String)
  | arr (xs : List Json)
  | obj (fields : List (String × Json))
deriving Repr

/-- Python exception kinds raised by the code under study. -/
inductive PyErr where
  | keyError
  | indexError
  | typeError
  | valueError
  | nameError
deriving Repr, DecidableEq

/-- Boolean test for the error constructor of Except. -/
def errB : Except PyErr α → Bool
  | .error _ => true
  | .ok _ => false

/-- Python dict subscript d[k] on a decoded JSON value: field lookup on an
object, KeyError when the key is absent, TypeError on scalars and on a string
subscripted with a string.  Objects decoded from JSON in this module never
carry duplicate keys, so first-match lookup coincides with the dict. -/
def jGet (j : Json) (k : String) : Except PyErr Json :=
  match j with
  | .obj fs =>
    match fs.lookup k with
    | some v => .ok v
    | none => .error .keyError
  | _ => .error .typeError

/-- Python list subscript xs[i] with an int: a negative index resolves from
the end of the list, an index beyond either end raises IndexError.  An int
subscript on a dict raises KeyError (decoded JSON dicts have string keys
only).  The remaining scalar branches never arise from the call sites in this
module, which only subscript the devices array and the getDevices dict. -/
def pyIndex (j : Json) (i : Int) : Except PyErr Json :=
  match j with
  | .arr xs =>
    if 0 ≤ i then
      match xs.get? i.toNat with
      | some v => .ok v
      | none => .error .indexError
    else
      let k := (xs.length : Int) + i
      if 0 ≤ k then
        match xs.get? k.toNat with
        | some v => .ok v
        | none => .error .indexError
      else .error .indexError
  | .obj _ => .error .keyError
  | _ => .error .typeError

/-- Chained field lookup, used to state where a value sits inside a built
envelope. -/
def jPath : Json → List String → Option Json
  | j, [] => some j
  | j, k :: ks =>
    match jGet j k with
    | .ok v => jPath v ks
    | .error _ => none

/-- Escape of one character inside a JSON string literal, as json.dumps
writes it.  Control characters and the ensure_ascii escapes never occur in
the strings this module emits, so the quote and backslash escapes suffice. -/
def escapeChar (c : Char) : String :=
  if c = '"' then "\\\"" else if c = '\\' then "\\\\" else String.singleton c

/-- Escape of a whole string for json.dumps output. -/
def escapeString (s : String) : String :=
  String.join (s.toList.map escapeChar)

mutual

/-- json.dumps on a decoded JSON value, with the default separators of the
Python json module. -/
def dumps : Json → String
  | .null => "null"
  | .bool true => "true"
  | .bool false => "false"
  | .num n => toString n
  | .str s => "\"" ++ escapeString s ++ "\""
  | .arr xs => "[" ++ String.intercalate ", " (dumpsElems xs) ++ "]"
  | .obj fs => "\x7b" ++ String.intercalate ", " (dumpsFields fs) ++ "\x7d"

/-- Serialized elements of a JSON array, in order. -/
def dumpsElems : List Json → List String
  | [] => []
  | x :: xs => dumps x :: dumpsElems xs

/-- Serialized key/value pairs of a JSON object, in insertion order, as the
Python dict preserves it. -/
def dumpsFields : List (String × Json) → List String
  | [] => []
  | (k, v) :: fs => ("\"" ++ escapeString k ++ "\": " ++ dumps v) :: dumpsFields fs

end

mutual

/-- Python repr of a decoded JSON value, reached by str() only on
containers.  String quoting is modeled for strings without quote or escape
characters, which covers every value this module ever formats. -/
def pyRepr : Json → String
  | .null => "None"
  | .bool true => "True"
  | .bool false => "False"
  | .num n => toString n
  | .str s => "\x27" ++ s ++ "\x27"
  | .arr xs => "[" ++ String.intercalate ", " (pyReprElems xs) ++ "]"
  | .obj fs => "\x7b" ++ String.intercalate ", " (pyReprFields fs) ++ "\x7d"

/-- Repr forms of the elements of a list value. -/
def pyReprElems : List Json → List String
  | [] => []
  | x :: xs => pyRepr x :: pyReprElems xs

/-- Repr forms of the entries of a dict value. -/
def pyReprFields : List (String × Json) → List String
  | [] => []
  | (k, v) :: fs => ("\x27" ++ k ++ "\x27: " ++ pyRepr v) :: pyReprFields fs

end

/-- Python str() on a decoded JSON value: a str is returned as is, scalars
print their literal form, containers print through repr. -/
def pyStr (j : Json) : String :=
  match j with
  | .str s => s
  | .null => "None"
  | .bool true => "True"
  | .bool false => "False"
  | .num n => toString n
  | .arr xs => pyRepr (.arr xs)
  | .obj fs => pyRepr (.obj fs)

/-- Python int() applied to a string: optional surrounding whitespace, an
optional sign, then one or more decimal digits; anything else raises
ValueError.  Underscore grouping and non-decimal forms never reach the call
sites in this module. -/
def pyInt (s : String) : Except PyErr Int :=
  let t := (((s.toList.dropWhile Char.isWhitespace).reverse).dropWhile Char.isWhitespace).reverse
  let isNeg : Bool := match t with
    | '-' :: _ => true
    | _ => false
  let core : List Char := match t with
    | '-' :: rest => rest
    | '+' :: rest => rest
    | _ => t
  if core.length > 0 && core.all Char.isDigit then
    let n : Nat := core.foldl (fun acc c => acc * 10 + (c.toNat - 48)) 0
    .ok (if isNeg then -(n : Int) else (n : Int))
  else .error .valueError

/-- Python sequence subscript args[i] on the positional argument list. -/
def pyListGet (args : List String) (i : Nat) : Except PyErr String :=
  match args.get? i with
  | some a => .ok a
  | none => .error .indexError

/-- One outgoing HTTP call, as issued by the requests library on behalf of
makeRequest: the method, the target url and, for POST, the already serialized
body (requests.post with data=None sends an empty body). -/
inductive NetCall where
  | get (url : String)
  | post (url : String) (body : String)
deriving Repr, DecidableEq

/-- Program state threaded through the stateful functions: the module-global
`devices` cache (line 116, written only by retrieveDevices) and the ordered
log of network calls issued so far. -/
structure St where
  devices : List Json
  log : List NetCall
deriving Repr

/-- State at module load: empty cache, no call issued. -/
def initSt : St := ⟨[], []⟩

/-- Result of makeRequest: either the JSON-decoded response body or, when
decoding fails, the raw UTF-8 body text. -/
inductive PyResult where
  | json (j : Json)
  | raw (text : String)
deriving Repr

/-- External collaborators of the transport layer: the remote service, as the
raw response body each call receives, and the simplejson decoder the requests
library applies to that body.  Network failures and non-2xx statuses are not
exercised by any claim, so respBody is total. -/
structure Env where
  respBody : NetCall → String
  decode : String → Option Json

/-- makeRequest (lines 157-188): issues the GET or POST, logs the status
code (observable side effect only, not modeled), then tries response.json()
and falls back to the raw decoded text on simplejson.errors.JSONDecodeError.
A method other than GET and POST leaves `response` bound to the empty string,
so reading response.status_code raises AttributeError, which the bare except
swallows, returning None with no request issued. -/
def makeRequest (env : Env) (url method : String) (data : Option String)
    (s : St) : Option PyResult × St :=
  if method = "GET" then
    let call := NetCall.get url
    let body := env.respBody call
    let res := match env.decode body with
      | some j => PyResult.json j
      | none => PyResult.raw body
    (some res, { s with log := s.log ++ [call] })
  else if method = "POST" then
    let call := NetCall.post url (data.getD "")
    let body := env.respBody call
    let res := match env.decode body with
      | some j => PyResult.json j
      | none => PyResult.raw body
    (some res, { s with log := s.log ++ [call] })
  else
    (none, s)

/-- Subscript on a makeRequest result, as retrieveDevices applies it: a
decoded dict is looked up by key; subscripting raw text with a string raises
TypeError. -/
def resGet (r : PyResult) (k : String) : Except PyErr Json :=
  match r with
  | .json j => jGet j k
  | .raw _ => .error .typeError

/-- Endpoint listing the devices of the account (line 212). -/
def devicesUrl : String := "https://alexa.amazon.com/api/devices-v2/device?cached=false"

/-- Endpoint receiving behavior commands (lines 281 and 303). -/
def behaviorsUrl : String := "https://alexa.amazon.com/api/behaviors/preview"

/-- retrieveDevices (lines 202-216): when the global cache is empty, GETs the
devices endpoint and stores the `devices` field of the decoded response; any
exception (a KeyError on the decoded dict, a TypeError subscripting raw text)
is swallowed by the bare except, which logs and returns None leaving the
cache unchanged.  A devices field that is not a JSON array never arises from
the endpoint (its contract fixes the field to an array, spec section 6) and
is not relied on by any theorem; it is modeled as the swallowed-exception
branch. -/
def retrieveDevices (env : Env) (s : St) : Option (List Json) × St :=
  if s.devices.length = 0 then
    match makeRequest env devicesUrl "GET" none s with
    | (some res, s1) =>
      match resGet res "devices" with
      | .ok (Json.arr ds) => (some ds, { s1 with devices := ds })
      | .ok _ => (none, s1)
      | .error _ => (none, s1)
    | (none, s1) => (none, s1)
  else (some s.devices, s)

/-- getDevices (lines 135-143): fills the cache if empty, then returns the
dict wrapping the global list.  The return value of retrieveDevices is
discarded; the wrapper always reflects the cache as it stands afterwards. -/
def getDevices (env : Env) (s : St) : Json × St :=
  let s1 := if s.devices.length = 0 then (retrieveDevices env s).2 else s
  (Json.obj [("devices", Json.arr s1.devices)], s1)

/-- Rows of getDeviceList: enumerate is zero-based and the display index is
i+1; device[accountName] raises KeyError when absent, and getDeviceList has
no try/except of its own, so that error propagates to the caller. -/
def formatDevices (i : Nat) : List Json → Except PyErr (List String)
  | [] => .ok []
  | d :: rest =>
    match jGet d "accountName" with
    | .error e => .error e
    | .ok nm =>
      match formatDevices (i + 1) rest with
      | .error e => .error e
      | .ok tl => .ok ((toString (i + 1) ++ ".) " ++ pyStr nm) :: tl)

/-- getDeviceList (lines 121-133): fills the cache if empty, then renders
each cached device as a display row. -/
def getDeviceList (env : Env) (s : St) : Except PyErr (List String) × St :=
  let s1 := if s.devices.length = 0 then (retrieveDevices env s).2 else s
  (formatDevices 0 s1.devices, s1)

/-- getDeviceAttribute (lines 218-234): subscripts the return value of
getDevices — the dict wrapping the list — directly with the integer index,
then looks up the attribute; the bare except swallows any exception and
returns None. -/
def getDeviceAttribute (env : Env) (index : Int) (attrName : String)
    (s : St) : Option Json × St :=
  let (devObj, s1) := getDevices env s
  match pyIndex devObj index with
  | .error _ => (none, s1)
  | .ok device =>
    match jGet device attrName with
    | .error _ => (none, s1)
    | .ok v => (some v, s1)

/-- Operation payload of constructAlexaCmd (lines 247-254).  The guard on
line 253 reads `if speak:` — it tests the module-level function object
`speak`, not the `type` parameter and not the `message` parameter — so the
condition is always truthy and the textToSpeak entry is appended
unconditionally, holding null when no message was passed (json.dumps renders
the Python None as null). -/
def operationPayload (deviceType serialNumber customerId : String)
    (message : Option String) : List (String × Json) :=
  [("deviceType", Json.str deviceType),
   ("deviceTypeId", Json.str deviceType),
   ("deviceSerialNumber", Json.str serialNumber),
   ("locale", Json.str "en-US"),
   ("customerId", Json.str customerId)]
  ++ [("textToSpeak", match message with
       | some m => Json.str m
       | none => Json.null)]

/-- startNode of the inner sequence (lines 256-258). -/
def startNodeVal (deviceType serialNumber customerId type : String)
    (message : Option String) : Json :=
  Json.obj
    [("@type", Json.str "com.amazon.alexa.behaviors.model.OpaquePayloadOperationNode"),
     ("type", Json.str type),
     ("operationPayload", Json.obj (operationPayload deviceType serialNumber customerId message))]

/-- Inner sequence structure (lines 260-261). -/
def sequenceJsonVal (deviceType serialNumber customerId type : String)
    (message : Option String) : Json :=
  Json.obj
    [("@type", Json.str "com.amazon.alexa.behaviors.model.Sequence"),
     ("startNode", startNodeVal deviceType serialNumber customerId type message)]

/-- Final serialized command (line 262): the outer envelope is dumped with
the inner sequence already dumped to a string, so the sequenceJson field is a
JSON string containing JSON, not a nested object. -/
def alexaCmdString (deviceType serialNumber customerId type : String)
    (message : Option String) : String :=
  dumps (Json.obj
    [("behaviorId", Json.str "PREVIEW"),
     ("sequenceJson", Json.str (dumps (sequenceJsonVal deviceType serialNumber customerId type message))),
     ("status", Json.str "ENABLED")])

/-- constructAlexaCmd (lines 236-265): reads the three identity fields of
the device dict through str() in the order the dict literal evaluates them;
a missing field raises KeyError (TypeError on a non-dict device), which the
caller catches. -/
def constructAlexaCmd (device : Json) (type : String) (message : Option String) :
    Except PyErr String :=
  match jGet device "deviceType" with
  | .error e => .error e
  | .ok dt =>
    match jGet device "serialNumber" with
    | .error e => .error e
    | .ok sn =>
      match jGet device "deviceOwnerCustomerId" with
      | .error e => .error e
      | .ok cid => .ok (alexaCmdString (pyStr dt) (pyStr sn) (pyStr cid) type message)

/-- speak (lines 288-309): parses the device index from args[0], takes the
message from args[1], resolves the device through getDevices, builds the
command and POSTs it.  The bare except turns every failure into None; a
failure after getDevices keeps whatever cache fill getDevices performed. -/
def speak (env : Env) (args : List String) (s : St) : Option PyResult × St :=
  match pyListGet args 0 with
  | .error _ => (none, s)
  | .ok a0 =>
    match pyInt a0 with
    | .error _ => (none, s)
    | .ok deviceIndex =>
      match pyListGet args 1 with
      | .error _ => (none, s)
      | .ok message =>
        let (devObj, s1) := getDevices env s
        match jGet devObj "devices" with
        | .error _ => (none, s1)
        | .ok dl =>
          match pyIndex dl deviceIndex with
          | .error _ => (none, s1)
          | .ok device =>
            match constructAlexaCmd device "Alexa.Speak" (some message) with
            | .error _ => (none, s1)
            | .ok alexaCmd => makeRequest env behaviorsUrl "POST" (some alexaCmd) s1

/-- getWeather (lines 267-286): same pipeline as speak with the weather-play
behavior type and no message argument. -/
def getWeather (env : Env) (args : List String) (s : St) : Option PyResult × St :=
  match pyListGet args 0 with
  | .error _ => (none, s)
  | .ok a0 =>
    match pyInt a0 with
    | .error _ => (none, s)
    | .ok deviceIndex =>
      let (devObj, s1) := getDevices env s
      match jGet devObj "devices" with
      | .error _ => (none, s1)
      | .ok dl =>
        match pyIndex dl deviceIndex with
        | .error _ => (none, s1)
        | .ok device =>
          match constructAlexaCmd device "Alexa.Weather.Play" none with
          | .error _ => (none, s1)
          | .ok alexaCmd => makeRequest env behaviorsUrl "POST" (some alexaCmd) s1

/-- Filesystem as getCookie sees it: for each of the two candidate paths,
none means no file, some none means a file whose content json.loads rejects,
and some (some j) means a file decoding to j.  The json.loads call itself
belongs to the standard library and is folded into this representation. -/
structure Fs where
  cwdCookie : Option (Option Json)
  tmpCookie : Option (Option Json)

/-- getCookie (lines 28-55): prefers .cookie.json in the working directory,
falls back to /tmp/.cookie.json.  When neither exists the code calls exit,
but the raised SystemExit is caught by the surrounding bare except, which
logs and returns None; a json.loads failure is swallowed the same way. -/
def getCookie (fs : Fs) : Option Json :=
  match fs.cwdCookie with
  | some parsed => parsed
  | none =>
    match fs.tmpCookie with
    | some parsed => parsed
    | none => none

/-- Outcome of getCsrf: the found dict wrapping the csrf value, the empty
string the function returns when the loop finds no csrf entry, or None when
the bare except swallowed an exception. -/
inductive CsrfRes where
  | found (v : Json)
  | emptyString
deriving Repr

/-- Loop body of getCsrf (lines 63-67): the first entry whose name field
equals the string csrf returns a dict wrapping its value field; a missing
name or value field raises (KeyError on dicts, TypeError on non-dict
entries), which the caller catches; falling off the loop returns the empty
string initially bound to csrf. -/
def csrfLoop : List Json → Option CsrfRes
  | [] => some .emptyString
  | e :: rest =>
    match jGet e "name" with
    | .error _ => none
    | .ok n =>
      match n with
      | .str nm =>
        if nm = "csrf" then
          match jGet e "value" with
          | .error _ => none
          | .ok v => some (.found v)
        else csrfLoop rest
      | _ => csrfLoop rest

/-- getCsrf (lines 57-69): iterates the decoded cookie.  Iterating None or a
non-iterable raises TypeError; iterating a dict yields its keys and a string
its characters, after which the string subscript raises TypeError — except
when the container is empty, where the loop body never runs and the empty
string is returned.  Every raise is swallowed by the bare except, yielding
None. -/
def getCsrf (fs : Fs) : Option CsrfRes :=
  match getCookie fs with
  | none => none
  | some j =>
    match j with
    | .arr entries => csrfLoop entries
    | .obj [] => some .emptyString
    | .str "" => some .emptyString
    | _ => none

/-- Loop of normalizeCookie (lines 79-80): appends name=value pairs joined
by a semicolon and a space, formatting each field through str(); a missing
field raises and is swallowed by the caller. -/
def cookieLoop (acc : String) : List Json → Option String
  | [] => some acc
  | e :: rest =>
    match jGet e "name" with
    | .error _ => none
    | .ok n =>
      match jGet e "value" with
      | .error _ => none
      | .ok v => cookieLoop (acc ++ pyStr n ++ "=" ++ pyStr v ++ "; ") rest

/-- normalizeCookie (lines 71-83) applied to an already decoded cookie
value, with the same iteration edge cases as getCsrf. -/
def normalizeCookieJson (cookie : Json) : Option String :=
  match cookie with
  | .arr entries => cookieLoop "" entries
  | .obj [] => some ""
  | .str "" => some ""
  | _ => none

/-- normalizeCookie (lines 71-83): re-reads the cookie file through
getCookie on every call, then folds the entries into the cookie header
string; any exception is swallowed into None. -/
def normalizeCookie (fs : Fs) : Option String :=
  match getCookie fs with
  | none => none
  | some j => normalizeCookieJson j

/-- constructHeaders (lines 99-114): static browser-mimicking fields, the
normalized cookie, and the csrf token.  normalizeCookie returning None
leaves the Cookie header bound to Python None (a dict accepts it), but
subscripting the getCsrf result with the string csrf raises TypeError when
that result is None or the empty string — and constructHeaders has no
try/except, so the raise propagates; at module load (line 118) that aborts
the import before any operation is callable. -/
def constructHeaders (fs : Fs) : Except PyErr (List (String × Json)) :=
  let cookieHeader : Json :=
    match normalizeCookie fs with
    | some cs => Json.str cs
    | none => Json.null
  match getCsrf fs with
  | some (.found v) =>
    .ok [("Accept-Encoding", Json.str "gzip, deflate, br"),
         ("Accept-Language", Json.str "en-US,en;q=0.9"),
         ("User-Agent", Json.str "Mozilla/5.0 (X11; Linux x86_64) AppleWebKit/537.36 (KHTML, like Gecko) Chrome/51.0.2704.103 Safari/537.36"),
         ("Referer", Json.str "https://alexa.amazon.com/spa/index.html"),
         ("Cookie", cookieHeader),
         ("Content-Type", Json.str "application/json; charset=UTF-8"),
         ("Connection", Json.str "keep-alive"),
         ("csrf", v)]
  | some .emptyString => .error .typeError
  | none => .error .typeError

/-- Module-level names bound in alexaControl.py when execute runs: the
imports, the logging formatter class, every function, and the three globals
assigned at lines 116-118. -/
def moduleGlobals : List String :=
  ["requests", "json", "os", "sys", "logging", "traceback", "simplejson",
   "OneLineExceptionFormatter", "getCookie", "getCsrf", "normalizeCookie",
   "initializeLogging", "constructHeaders", "getDeviceList", "getDevices",
   "listDevices", "makeRequest", "testApi", "retrieveDevices",
   "getDeviceAttribute", "constructAlexaCmd", "getWeather", "speak",
   "execute", "run", "devices", "deviceAttributes", "headers"]

/-- A few of the Python builtins that a bare name also resolves to when it
is not a module global. -/
def pythonBuiltins : List String :=
  ["print", "len", "open", "exit", "id", "input", "eval", "exec"]

/-- The fixed operation set of the specification: list devices, get device
attribute, speak, get weather, raw API probe (every module function serving
one of these five operations is listed). -/
def fixedOperationSet : List String :=
  ["listDevices", "getDeviceList", "getDevices", "getDeviceAttribute",
   "speak", "getWeather", "testApi"]

/-- What eval resolves a name to inside execute. -/
inductive Resolved where
  | moduleMember (nm : String)
  | builtinMember (nm : String)
deriving Repr, DecidableEq

/-- Name resolution step of execute (line 313): `exe = eval(command)`
evaluates the command string as a Python expression in the module namespace.
For a bare identifier this resolves against the module globals and then the
builtins, returning whatever object is bound there — a name bound to any
callable is then invoked on line 314 — and an unbound name raises NameError.
A command string that is not a bare identifier is evaluated as arbitrary
code, which has no shallow embedding; the identifier fragment modeled here
already shows the dispatch is name evaluation over the whole namespace
rather than a lookup in a table of operations. -/
def evalNameResolution (command : String) : Except PyErr Resolved :=
  if moduleGlobals.contains command then .ok (.moduleMember command)
  else if pythonBuiltins.contains command then .ok (.builtinMember command)
  else .error .nameError

/-- The device-listing operations of the registry, for stating the cache
behavior across a whole call sequence.  listDevices repeats getDeviceList
with a print and is covered by it. -/
inductive ListOp where
  | getDevicesOp
  | getDeviceListOp
  | retrieveDevicesOp
deriving Repr, DecidableEq

/-- State effect of one device-listing call (each discards its return
value). -/
def stepOp (env : Env) (s : St) : ListOp → St
  | .getDevicesOp => (getDevices env s).2
  | .getDeviceListOp => (getDeviceList env s).2
  | .retrieveDevicesOp => (retrieveDevices env s).2

/-- A sequence of device-listing calls within one process lifetime. -/
def runOps (env : Env) (ops : List ListOp) (s : St) : St :=
  ops.foldl (stepOp env) s

/-- C1: the claim requires execute to reject every name outside the fixed
operation set with UnknownOperation, resolved by a static table and never by
evaluating the name string as code.  The code instead runs eval(command):
the name getCookie — outside the fixed operation set — resolves to a module
function that line 314 then invokes instead of rejecting, the builtin print
resolves the same way, and a name bound to nothing raises NameError rather
than any UnknownOperation error value. -/
theorem execute_resolves_names_outside_operation_table :
    evalNameResolution "getCookie" = .ok (.moduleMember "getCookie")
    ∧ fixedOperationSet.contains "getCookie" = false
    ∧ evalNameResolution "print" = .ok (.builtinMember "print")
    ∧ fixedOperationSet.contains "print" = false
    ∧ evalNameResolution "noSuchOperation" = .error .nameError :=
  ⟨rfl, rfl, rfl, rfl, rfl⟩

/-- C4: the claim says getDeviceAttribute returns the attribute value of the
device at the given index.  The code subscripts the return value of
getDevices — the dict wrapping the device list — directly with the integer
index, which raises KeyError for every index, so the swallowed exception
makes the function return None for every input, never a value and never a
distinguishable AttributeMissing failure. -/
theorem getDeviceAttribute_always_returns_none :
    ∀ (env : Env) (index : Int) (attrName : String) (s : St),
      (getDeviceAttribute env index attrName s).1 = none :=
  fun _ _ _ _ => rfl

/-- C3: the claim says the built operation payload carries a textToSpeak
field exactly when the operation type is the speak variant, and in
particular that the weather-play build has no textToSpeak field.  The guard
on line 253 tests the module function object speak, which is always truthy,
so the weather-play payload carries textToSpeak bound to null for every
device. -/
theorem constructAlexaCmd_weather_payload_has_null_textToSpeak :
    ∀ (dt sn cid : String),
      constructAlexaCmd
        (Json.obj [("deviceType", Json.str dt), ("serialNumber", Json.str sn),
                   ("deviceOwnerCustomerId", Json.str cid)])
        "Alexa.Weather.Play" none
        = .ok (alexaCmdString dt sn cid "Alexa.Weather.Play" none)
      ∧ jPath (sequenceJsonVal dt sn cid "Alexa.Weather.Play" none)
          ["startNode", "operationPayload", "textToSpeak"] = some Json.null :=
  fun _ _ _ => ⟨rfl, rfl⟩

/-- Follows the wording of the spec (sections 4.2 and 8), for comparison
with the code: the concatenation, in the original entry order of the
session, of name=value followed by a semicolon and a space, one piece per
entry. -/
def specCookieConcat : List (String × String) → String
  | [] => ""
  | e :: rest => e.1 ++ "=" ++ e.2 ++ "; " ++ specCookieConcat rest

/-- A session of name/value entries in the decoded shape of the cookie
file: a JSON array of objects with a name field and a value field. -/
def sessionJson (session : List (String × String)) : Json :=
  Json.arr (session.map fun e => Json.obj [("name", Json.str e.1), ("value", Json.str e.2)])

/-- Accumulator form of the cookie loop over a well-formed session. -/
theorem cookieLoop_mapped (session : List (String × String)) :
    ∀ acc : String,
      cookieLoop acc (session.map fun e => Json.obj [("name", Json.str e.1), ("value", Json.str e.2)])
        = some (acc ++ specCookieConcat session) := by
  induction session with
  | nil => intro acc; simp [cookieLoop, specCookieConcat]
  | cons e rest ih =>
    intro acc
    have step : cookieLoop acc ((e :: rest).map fun p => Json.obj [("name", Json.str p.1), ("value", Json.str p.2)])
        = cookieLoop (acc ++ e.1 ++ "=" ++ e.2 ++ "; ") (rest.map fun p => Json.obj [("name", Json.str p.1), ("value", Json.str p.2)]) := rfl
    rw [step, ih]
    simp [specCookieConcat, String.append_assoc]

/-- C6: for every session, in any order and with any contents, the cookie
string that normalizeCookie builds — the value line 110 installs as the
Cookie header — is exactly the concatenation of name=value plus semicolon
and space in the original entry order: no entry is reordered, dropped or
reformatted. -/
theorem normalizeCookie_keeps_order (session : List (String × String)) :
    normalizeCookieJson (sessionJson session) = some (specCookieConcat session) := by
  simpa [normalizeCookieJson, sessionJson] using cookieLoop_mapped session ""

/-- C9: a transport response body that the JSON decoder rejects is returned
as the raw decoded text of the body, as a normal result and not an error,
while a body that decodes is returned as the decoded structure; this holds
for both the GET and the POST paths of makeRequest. -/
theorem makeRequest_decode_failure_returns_raw_text
    (env : Env) (url : String) (data : Option String) (s : St) :
    (env.decode (env.respBody (NetCall.get url)) = none →
      makeRequest env url "GET" none s =
        (some (PyResult.raw (env.respBody (NetCall.get url))),
         { s with log := s.log ++ [NetCall.get url] }))
    ∧ (∀ j, env.decode (env.respBody (NetCall.get url)) = some j →
      makeRequest env url "GET" none s =
        (some (PyResult.json j), { s with log := s.log ++ [NetCall.get url] }))
    ∧ (env.decode (env.respBody (NetCall.post url (data.getD ""))) = none →
      makeRequest env url "POST" data s =
        (some (PyResult.raw (env.respBody (NetCall.post url (data.getD "")))),
         { s with log := s.log ++ [NetCall.post url (data.getD "")] }))
    ∧ (∀ j, env.decode (env.respBody (NetCall.post url (data.getD ""))) = some j →
      makeRequest env url "POST" data s =
        (some (PyResult.json j), { s with log := s.log ++ [NetCall.post url (data.getD "")] })) := by
  refine ⟨fun h => ?_, fun j h => ?_, fun h => ?_, fun j h => ?_⟩ <;>
    simp [makeRequest, h]

/-- Closed instance of C9: with a remote service answering the body
`not json` and a decoder rejecting it, makeRequest returns that text as a
plain result. -/
theorem makeRequest_decode_failure_returns_raw_text_witness :
    makeRequest ⟨fun _ => "not json", fun _ => none⟩ devicesUrl "GET" none initSt
      = (some (PyResult.raw "not json"),
         { initSt with log := initSt.log ++ [NetCall.get devicesUrl] }) :=
  (makeRequest_decode_failure_returns_raw_text ⟨fun _ => "not json", fun _ => none⟩
    devicesUrl none initSt).1 rfl

/-- A device-listing call on a nonempty cache changes nothing: no network
call, cache returned as it stands. -/
theorem stepOp_cached (env : Env) (s : St) (hne : s.devices ≠ []) (op : ListOp) :
    stepOp env s op = s := by
  have hlen : ¬ s.devices.length = 0 := by simpa [List.length_eq_zero] using hne
  cases op <;> simp [stepOp, getDevices, getDeviceList, retrieveDevices, hlen]

/-- The first device-listing call on the empty cache issues the devices GET
and writes the devices field of the decoded response into the cache. -/
theorem stepOp_first (env : Env) (ds : List Json) (j : Json)
    (hdec : env.decode (env.respBody (NetCall.get devicesUrl)) = some j)
    (hdev : jGet j "devices" = Except.ok (Json.arr ds)) (op : ListOp) :
    stepOp env ⟨[], []⟩ op = ⟨ds, [NetCall.get devicesUrl]⟩ := by
  cases op <;>
    simp [stepOp, getDevices, getDeviceList, retrieveDevices, makeRequest, resGet, hdec, hdev]

/-- C7 (amended): provided the devices GET decodes to a structure whose
devices field is a nonempty array, then across every sequence of
device-listing calls from module load at most one network fetch happens —
the final state is either untouched (no call was made) or carries exactly
one logged GET with the response devices written into the cache once and
returned unchanged by every subsequent call.  The nonemptiness proviso is
what the code makes necessary: the cache-filled test is len(devices) == 0,
so an account with an empty device list is fetched again on every call (see
the counterexample). -/
theorem deviceCache_at_most_one_fetch (env : Env) (ds : List Json) (j : Json)
    (hdec : env.decode (env.respBody (NetCall.get devicesUrl)) = some j)
    (hdev : jGet j "devices" = Except.ok (Json.arr ds))
    (hne : ds ≠ []) :
    ∀ ops : List ListOp,
      runOps env ops initSt = initSt
      ∨ runOps env ops initSt = ⟨ds, [NetCall.get devicesUrl]⟩ := by
  have main : ∀ (ops : List ListOp) (s : St),
      (s = initSt ∨ s = ⟨ds, [NetCall.get devicesUrl]⟩) →
      (runOps env ops s = initSt ∨ runOps env ops s = ⟨ds, [NetCall.get devicesUrl]⟩) := by
    intro ops
    induction ops with
    | nil => intro s hs; simpa [runOps] using hs
    | cons op rest ih =>
      intro s hs
      have hstep : stepOp env s op = ⟨ds, [NetCall.get devicesUrl]⟩ := by
        rcases hs with h | h <;> subst h
        · exact stepOp_first env ds j hdec hdev op
        · exact stepOp_cached env _ hne op
      have hrest := ih (stepOp env s op) (Or.inr hstep)
      simpa [runOps] using hrest
  intro ops
  exact main ops initSt (Or.inl rfl)

/-- Closed instance of the C7 theorem at a one-device account over three
consecutive listing calls. -/
theorem deviceCache_at_most_one_fetch_witness :
    runOps ⟨fun _ => "", fun _ => some (Json.obj [("devices", Json.arr [Json.obj [("accountName", Json.str "Kitchen")]])])⟩
        [ListOp.getDevicesOp, ListOp.getDevicesOp, ListOp.getDeviceListOp] initSt = initSt
    ∨ runOps ⟨fun _ => "", fun _ => some (Json.obj [("devices", Json.arr [Json.obj [("accountName", Json.str "Kitchen")]])])⟩
        [ListOp.getDevicesOp, ListOp.getDevicesOp, ListOp.getDeviceListOp] initSt
      = ⟨[Json.obj [("accountName", Json.str "Kitchen")]], [NetCall.get devicesUrl]⟩ :=
  deviceCache_at_most_one_fetch _ [Json.obj [("accountName", Json.str "Kitchen")]]
    (Json.obj [("devices", Json.arr [Json.obj [("accountName", Json.str "Kitchen")]])])
    rfl rfl (by simp)
    [ListOp.getDevicesOp, ListOp.getDevicesOp, ListOp.getDeviceListOp]

/-- C7 counterexample to the claim as stated: when the fetched devices
field is the empty array, the cache test len(devices) == 0 stays true, so
two device-listing calls issue two network fetches — more than the at most
one the claim asserts for every cached response. -/
theorem deviceCache_empty_refetch_counterexample :
    (runOps ⟨fun _ => "", fun _ => some (Json.obj [("devices", Json.arr [])])⟩
        [ListOp.getDevicesOp, ListOp.getDevicesOp] initSt).log
      = [NetCall.get devicesUrl, NetCall.get devicesUrl] := rfl

/-- A Python list subscript fails exactly when the index falls outside both
the non-negative range and the negative from-the-end range. -/
theorem pyIndex_out_of_range (xs : List Json) (i : Int)
    (h : (xs.length : Int) ≤ i ∨ i < -(xs.length : Int)) :
    pyIndex (Json.arr xs) i = .error .indexError := by
  rcases h with h | h
  · have h0 : 0 ≤ i := le_trans (Int.ofNat_nonneg _) h
    have hlen : xs.length ≤ i.toNat := by omega
    simp [pyIndex, h0, List.getElem?_eq_none hlen]
  · have h0 : ¬ (0 ≤ i) := by omega
    have h1 : ¬ (0 ≤ (xs.length : Int) + i) := by omega
    simp [pyIndex, h0, h1]

/-- C8 (amended): for an index whose integer value is at least the number of
cached devices or below the negative of that number — outside what a Python
subscript accepts — speak and getWeather raise IndexError before building
any command, the bare except turns that into a None return, and the state
gains no POST: it is exactly the state getDevices left (at most the cache
fill GET).  The amendment is forced by Python subscript semantics: an index
in [-len, -1], although outside the [0, len) range of the claim, resolves
from the end of the list and does reach the POST (see the
counterexample). -/
theorem out_of_range_index_no_post (env : Env) (s : St) (a msg : String) (i : Int)
    (ha : pyInt a = Except.ok i)
    (hout : ((getDevices env s).2.devices.length : Int) ≤ i
            ∨ i < -(((getDevices env s).2.devices.length : Int))) :
    speak env [a, msg] s = (none, (getDevices env s).2)
    ∧ getWeather env [a] s = (none, (getDevices env s).2) := by
  have hidx := pyIndex_out_of_range (getDevices env s).2.devices i hout
  have hj : jGet (getDevices env s).1 "devices"
      = Except.ok (Json.arr (getDevices env s).2.devices) := rfl
  constructor
  · simp only [speak, pyListGet, List.get?, ha, hj, hidx]
  · simp only [getWeather, pyListGet, List.get?, ha, hj, hidx]

/-- Closed instance of the C8 theorem: on an empty device list, index 0 is
already out of range, both operations return None, and the only logged call
is the cache-fill GET — no POST. -/
theorem out_of_range_index_no_post_witness :
    speak ⟨fun _ => "", fun _ => none⟩ ["0", "hi"] initSt
        = (none, ⟨[], [NetCall.get devicesUrl]⟩)
    ∧ getWeather ⟨fun _ => "", fun _ => none⟩ ["0"] initSt
        = (none, ⟨[], [NetCall.get devicesUrl]⟩) :=
  out_of_range_index_no_post ⟨fun _ => "", fun _ => none⟩ initSt "0" "hi" 0 rfl
    (Or.inl (le_of_eq rfl))

/-- C8 counterexample to the claim as stated: with one cached device, the
index -1 lies outside [0, 1) yet speak does not fail — Python resolves it to
the last device and the mutating POST is issued. -/
theorem speak_negative_index_posts_counterexample :
    ((-1 : Int) < 0)
    ∧ (speak ⟨fun _ => "", fun _ => none⟩ ["-1", "hello"]
        ⟨[Json.obj [("deviceType", Json.str "TYPEX"), ("serialNumber", Json.str "ABC123"),
                    ("deviceOwnerCustomerId", Json.str "CUST1")]], []⟩).2.log
      = [NetCall.post behaviorsUrl
          (alexaCmdString "TYPEX" "ABC123" "CUST1" "Alexa.Speak" (some "hello"))] :=
  ⟨by norm_num, rfl⟩

/-- C5: for every device carrying the three identity fields, and every
operation type and optional message, the built command is the dump of an
outer envelope whose sequenceJson field is a JSON string — the dump of the
inner sequence, not a nested object — and that inner sequence carries the
str() form of the device serialNumber at
startNode.operationPayload.deviceSerialNumber. -/
theorem constructAlexaCmd_sequenceJson_double_encoded
    (device : Json) (dt sn cid : Json) (type : String) (message : Option String)
    (hdt : jGet device "deviceType" = .ok dt)
    (hsn : jGet device "serialNumber" = .ok sn)
    (hcid : jGet device "deviceOwnerCustomerId" = .ok cid) :
    ∃ seq : Json,
      constructAlexaCmd device type message =
        .ok (dumps (Json.obj
          [("behaviorId", Json.str "PREVIEW"),
           ("sequenceJson", Json.str (dumps seq)),
           ("status", Json.str "ENABLED")]))
      ∧ jPath seq ["startNode", "operationPayload", "deviceSerialNumber"]
          = some (Json.str (pyStr sn)) := by
  refine ⟨sequenceJsonVal (pyStr dt) (pyStr sn) (pyStr cid) type message, ?_, rfl⟩
  simp only [constructAlexaCmd, hdt, hsn, hcid, alexaCmdString]

/-- Closed instance of the C5 theorem at a concrete device. -/
theorem constructAlexaCmd_sequenceJson_double_encoded_witness :
    ∃ seq : Json,
      constructAlexaCmd
          (Json.obj [("deviceType", Json.str "TYPEX"), ("serialNumber", Json.str "ABC123"),
                     ("deviceOwnerCustomerId", Json.str "CUST1")])
          "Alexa.Speak" (some "hi") =
        .ok (dumps (Json.obj
          [("behaviorId", Json.str "PREVIEW"),
           ("sequenceJson", Json.str (dumps seq)),
           ("status", Json.str "ENABLED")]))
      ∧ jPath seq ["startNode", "operationPayload", "deviceSerialNumber"]
          = some (Json.str "ABC123") :=
  constructAlexaCmd_sequenceJson_double_encoded
    (Json.obj [("deviceType", Json.str "TYPEX"), ("serialNumber", Json.str "ABC123"),
               ("deviceOwnerCustomerId", Json.str "CUST1")])
    (Json.str "TYPEX") (Json.str "ABC123") (Json.str "CUST1")
    "Alexa.Speak" (some "hi") rfl rfl rfl

/-- C2: with a populated cache whose device at index 0 carries serialNumber
ABC123 (and the other two identity fields, which the dict literal of
constructAlexaCmd reads unconditionally), executing the speak operation on
arguments 0 and hello appends exactly one Transport call to the log: a POST
to the behaviors endpoint whose body is the dump of an envelope wrapping a
dumped inner sequence that carries textToSpeak hello and
deviceSerialNumber ABC123 in its operation payload. -/
theorem speak_posts_envelope
    (env : Env) (s : St) (dev : Json) (rest : List Json) (dt cid : Json)
    (hdev : s.devices = dev :: rest)
    (hdt : jGet dev "deviceType" = .ok dt)
    (hsn : jGet dev "serialNumber" = .ok (Json.str "ABC123"))
    (hcid : jGet dev "deviceOwnerCustomerId" = .ok cid) :
    ∃ seq : Json,
      (speak env ["0", "hello"] s).2.log =
        s.log ++ [NetCall.post behaviorsUrl
          (dumps (Json.obj
            [("behaviorId", Json.str "PREVIEW"),
             ("sequenceJson", Json.str (dumps seq)),
             ("status", Json.str "ENABLED")]))]
      ∧ jPath seq ["startNode", "operationPayload", "textToSpeak"] = some (Json.str "hello")
      ∧ jPath seq ["startNode", "operationPayload", "deviceSerialNumber"] = some (Json.str "ABC123") := by
  refine ⟨sequenceJsonVal (pyStr dt) "ABC123" (pyStr cid) "Alexa.Speak" (some "hello"), ?_, rfl, rfl⟩
  obtain ⟨sd, sl⟩ := s
  simp only at hdev
  subst hdev
  have ha0 : pyListGet ["0", "hello"] 0 = Except.ok "0" := rfl
  have ha1 : pyListGet ["0", "hello"] 1 = Except.ok "hello" := rfl
  have h0 : pyInt "0" = Except.ok 0 := rfl
  have hg : getDevices env ⟨dev :: rest, sl⟩
      = (Json.obj [("devices", Json.arr (dev :: rest))], ⟨dev :: rest, sl⟩) := rfl
  have hjd : jGet (Json.obj [("devices", Json.arr (dev :: rest))]) "devices"
      = Except.ok (Json.arr (dev :: rest)) := rfl
  have hpi : pyIndex (Json.arr (dev :: rest)) 0 = Except.ok dev := rfl
  have hmr : ∀ c : String, makeRequest env behaviorsUrl "POST" (some c) ⟨dev :: rest, sl⟩
      = (some (match env.decode (env.respBody (NetCall.post behaviorsUrl c)) with
               | some jj => PyResult.json jj
               | none => PyResult.raw (env.respBody (NetCall.post behaviorsUrl c))),
         ⟨dev :: rest, sl ++ [NetCall.post behaviorsUrl c]⟩) := fun c => rfl
  simp only [speak, ha0, h0, ha1, hg, hjd, hpi, constructAlexaCmd, hdt, hsn, hcid, hmr,
    alexaCmdString]
  rfl

/-- Closed instance of the C2 theorem at a concrete cache and transport. -/
theorem speak_posts_envelope_witness :
    ∃ seq : Json,
      (speak ⟨fun _ => "", fun _ => none⟩ ["0", "hello"]
        ⟨[Json.obj [("deviceType", Json.str "TYPEX"), ("serialNumber", Json.str "ABC123"),
                    ("deviceOwnerCustomerId", Json.str "CUST1")]], []⟩).2.log =
        [] ++ [NetCall.post behaviorsUrl
          (dumps (Json.obj
            [("behaviorId", Json.str "PREVIEW"),
             ("sequenceJson", Json.str (dumps seq)),
             ("status", Json.str "ENABLED")]))]
      ∧ jPath seq ["startNode", "operationPayload", "textToSpeak"] = some (Json.str "hello")
      ∧ jPath seq ["startNode", "operationPayload", "deviceSerialNumber"] = some (Json.str "ABC123") :=
  speak_posts_envelope ⟨fun _ => "", fun _ => none⟩
    ⟨[Json.obj [("deviceType", Json.str "TYPEX"), ("serialNumber", Json.str "ABC123"),
                ("deviceOwnerCustomerId", Json.str "CUST1")]], []⟩
    (Json.obj [("deviceType", Json.str "TYPEX"), ("serialNumber", Json.str "ABC123"),
               ("deviceOwnerCustomerId", Json.str "CUST1")])
    [] (Json.str "TYPEX") (Json.str "CUST1") rfl rfl rfl rfl

/-- When no entry of the decoded cookie has name csrf, the csrf loop never
produces a found value. -/
theorem csrfLoop_no_csrf (entries : List Json)
    (h : ∀ e ∈ entries, ∀ v, jGet e "name" = Except.ok v → v ≠ Json.str "csrf") :
    ∀ v, csrfLoop entries ≠ some (CsrfRes.found v) := by
  induction entries with
  | nil => intro v; simp [csrfLoop]
  | cons e rest ih =>
    intro v
    have hrest := ih (fun x hx => h x (List.mem_cons_of_mem e hx))
    cases hje : jGet e "name" with
    | error err => simp [csrfLoop, hje]
    | ok n =>
      cases n with
      | str nm =>
        by_cases hnm : nm = "csrf"
        · subst hnm
          exact absurd rfl (h e (List.mem_cons_self e rest) _ hje)
        · simp [csrfLoop, hje, hnm]
          exact fun hcontra => (hrest v) hcontra
      | null => simp [csrfLoop, hje]; exact fun hc => (hrest v) hc
      | bool b => simp [csrfLoop, hje]; exact fun hc => (hrest v) hc
      | num m => simp [csrfLoop, hje]; exact fun hc => (hrest v) hc
      | arr xs => simp [csrfLoop, hje]; exact fun hc => (hrest v) hc
      | obj fs => simp [csrfLoop, hje]; exact fun hc => (hrest v) hc

/-- On a well-formed cookie that does contain a csrf entry, the csrf loop
finds it. -/
theorem csrfLoop_finds_csrf (entries : List Json)
    (hwf : ∀ e ∈ entries, ∃ n v, e = Json.obj [("name", Json.str n), ("value", Json.str v)])
    (hex : ∃ e ∈ entries, jGet e "name" = Except.ok (Json.str "csrf")) :
    ∃ v, csrfLoop entries = some (CsrfRes.found v) := by
  induction entries with
  | nil => rcases hex with ⟨e, he, _⟩; exact absurd he (List.not_mem_nil e)
  | cons e rest ih =>
    obtain ⟨n, v0, hes⟩ := hwf e (List.mem_cons_self e rest)
    subst hes
    by_cases hn : n = "csrf"
    · subst hn
      exact ⟨Json.str v0, by simp [csrfLoop, jGet, List.lookup]⟩
    · have hex2 : ∃ x ∈ rest, jGet x "name" = Except.ok (Json.str "csrf") := by
        rcases hex with ⟨x, hx, hxn⟩
        rcases List.mem_cons.mp hx with h1 | h1
        · subst h1
          simp [jGet, List.lookup] at hxn
          exact absurd hxn hn
        · exact ⟨x, h1, hxn⟩
      obtain ⟨v, hv⟩ := ih (fun x hx => hwf x (List.mem_cons_of_mem _ hx)) hex2
      refine ⟨v, ?_⟩
      simpa [csrfLoop, jGet, List.lookup, hn] using hv

/-- C10: the module evaluates constructHeaders once at import (line 118), so
every public operation presupposes that header construction succeeded then.
With no cookie file at either path, the exit call is swallowed by the bare
except but the subsequent csrf subscript on None raises, so initialization
fails; with a file that parses as an array holding no csrf entry,
initialization raises the same way (getCsrf falls through to the empty
string, which the csrf subscript rejects); and with a parsed array of
name/value entries containing a csrf entry, initialization succeeds — the
precondition is exactly satisfiable as the claim states it. -/
theorem moduleLoad_requires_cookie_with_csrf :
    ∀ (fs : Fs) (entries : List Json),
      ((fs.cwdCookie = none ∧ fs.tmpCookie = none) → errB (constructHeaders fs) = true)
      ∧ ((getCookie fs = some (Json.arr entries) ∧
          (∀ e ∈ entries, ∀ v, jGet e "name" = Except.ok v → v ≠ Json.str "csrf")) →
         errB (constructHeaders fs) = true)
      ∧ ((getCookie fs = some (Json.arr entries) ∧
          (∀ e ∈ entries, ∃ n v, e = Json.obj [("name", Json.str n), ("value", Json.str v)]) ∧
          (∃ e ∈ entries, jGet e "name" = Except.ok (Json.str "csrf"))) →
         errB (constructHeaders fs) = false) := by
  intro fs entries
  refine ⟨fun ⟨h1, h2⟩ => ?_, fun ⟨hck, hno⟩ => ?_, fun ⟨hck, hwf, hex⟩ => ?_⟩
  · obtain ⟨c, t⟩ := fs
    simp only at h1 h2
    subst h1; subst h2
    rfl
  · have hcs : getCsrf fs = csrfLoop entries := by simp [getCsrf, hck]
    cases hcl : csrfLoop entries with
    | none => simp [constructHeaders, hcs, hcl, errB]
    | some r =>
      cases r with
      | emptyString => simp [constructHeaders, hcs, hcl, errB]
      | found v => exact absurd hcl (csrfLoop_no_csrf entries hno v)
  · have hcs : getCsrf fs = csrfLoop entries := by simp [getCsrf, hck]
    obtain ⟨v, hv⟩ := csrfLoop_finds_csrf entries hwf hex
    simp [constructHeaders, hcs, hv, errB]

/-- Closed instances of the C10 theorem: missing file, csrf-less file, and
a good file. -/
theorem moduleLoad_requires_cookie_with_csrf_witness :
    errB (constructHeaders ⟨none, none⟩) = true
    ∧ errB (constructHeaders
        ⟨some (some (Json.arr [Json.obj [("name", Json.str "a"), ("value", Json.str "1")]])), none⟩) = true
    ∧ errB (constructHeaders
        ⟨some (some (Json.arr [Json.obj [("name", Json.str "csrf"), ("value", Json.str "tok")]])), none⟩) = false := by
  refine ⟨(moduleLoad_requires_cookie_with_csrf ⟨none, none⟩ []).1 ⟨rfl, rfl⟩, ?_, ?_⟩
  · refine (moduleLoad_requires_cookie_with_csrf _
      [Json.obj [("name", Json.str "a"), ("value", Json.str "1")]]).2.1 ⟨rfl, ?_⟩
    intro e he v hv
    simp only [List.mem_singleton] at he
    subst he
    have hva : Except.ok (Json.str "a") = (Except.ok v : Except PyErr Json) := by rw [← hv]; rfl
    cases hva
    intro hc
    injection hc with h
    exact absurd h (by decide)
  · refine (moduleLoad_requires_cookie_with_csrf _
      [Json.obj [("name", Json.str "csrf"), ("value", Json.str "tok")]]).2.2 ⟨rfl, ?_, ?_⟩
    · intro e he
      simp only [List.mem_singleton] at he
      subst he
      exact ⟨"csrf", "tok", rfl⟩
    · exact ⟨Json.obj [("name", Json.str "csrf"), ("value", Json.str "tok")],
        List.mem_singleton.mpr rfl, rfl⟩

end AlexaControl
